import Mathlib

/-!
Verification development for the region-based pipeline core of an
N-dimensional image-processing library (ITK excerpt).

The embedding covers:
* `ImageRegion` — a start index and size per dimension, with containment,
  emptiness and intersection (Crop).
* `DataObjectState` — the three nested regions, modification timestamp and
  released flag of a Data Object, with the Update protocol.
* `ImageState` / `ImageAdaptorState` — a buffered image and the adaptor that
  wraps it together with a pixel accessor, delegating region and timestamp
  state to the wrapped image and rewriting element access through the
  accessor (from src/Code/Common/itkImageAdaptor.h).
* `AcosPixelAccessor` — the accessor of
  src/Modules/Core/ImageAdaptors/include/itkAcosImageAdaptor.h, whose Set and
  Get both apply acos; the trigonometric function itself is kept as an
  explicit function parameter so that theorems can instantiate it with the
  mathematical arccos.
* `TranslationTransform` — the translation transform family of
  src/Code/Common/itkTranslationTransform.h, scalars modelled by ℚ.

Method bodies that live in the .txx files are absent from the excerpt; those
definitions are modelled from the spec and say so in their doc comments.
Bodies that are inline in the headers (SetPixel, GetPixel, operator[],
AcosPixelAccessor::Set/Get) are translated directly.
-/

/-- A rectangular index range over a d-dimensional grid: a start index and a
size per dimension, as in ITK's ImageRegion (spec section 3: Region). -/
structure ImageRegion (d : Nat) where
  index : Fin d → Int
  size : Fin d → Nat

namespace ImageRegion

/-- Componentwise boolean equality test for regions. -/
def beq {d : Nat} (a b : ImageRegion d) : Bool :=
  (List.finRange d).all fun i => (a.index i == b.index i) && (a.size i == b.size i)

theorem beq_iff_region {d : Nat} (a b : ImageRegion d) : beq a b = true ↔ a = b := by
  unfold beq
  simp only [List.all_eq_true, List.mem_finRange, Bool.and_eq_true, beq_iff_eq,
    forall_const, true_implies]
  constructor
  · intro h
    cases a; cases b
    simp only [mk.injEq]
    exact ⟨funext fun i => (h i).1, funext fun i => (h i).2⟩
  · rintro rfl i
    exact ⟨rfl, rfl⟩

/-- Modelled from the spec: a region is empty iff its size has a zero
component (spec section 4.1, IsEmpty). -/
def IsEmpty {d : Nat} (r : ImageRegion d) : Bool :=
  (List.finRange d).any fun i => r.size i == 0

/-- Modelled from the spec: region A contains region B iff every index of B
lies in A (spec section 3).  An empty B is vacuously contained; a nonempty B
is contained iff in each dimension its start is at or after A's start and its
past-the-end corner is at or before A's. -/
def Contains {d : Nat} (self other : ImageRegion d) : Bool :=
  other.IsEmpty ||
    (List.finRange d).all fun i =>
      decide (self.index i ≤ other.index i) &&
      decide (other.index i + (other.size i : Int) ≤ self.index i + (self.size i : Int))

/-- Modelled from the spec: whether a single grid index lies inside the
region. -/
def ContainsIndex {d : Nat} (r : ImageRegion d) (p : Fin d → Int) : Bool :=
  (List.finRange d).all fun i =>
    decide (r.index i ≤ p i) && decide (p i < r.index i + (r.size i : Int))

/-- Modelled from the spec: intersection of two regions (ITK's Crop): the
componentwise max of the starts and min of the past-the-end corners, with a
negative extent clamped to size zero (spec section 4.1, Intersection). -/
def Crop {d : Nat} (self other : ImageRegion d) : ImageRegion d where
  index := fun i => max (self.index i) (other.index i)
  size := fun i =>
    (min (self.index i + (self.size i : Int)) (other.index i + (other.size i : Int)) -
      max (self.index i) (other.index i)).toNat

theorem contains_refl {d : Nat} (r : ImageRegion d) : r.Contains r = true := by
  simp only [Contains, Bool.or_eq_true, List.all_eq_true]
  right
  intro i _
  simp

theorem contains_crop {d : Nat} (a b : ImageRegion d) : b.Contains (a.Crop b) = true := by
  by_cases h : (a.Crop b).IsEmpty = true
  · simp [Contains, h]
  · simp only [IsEmpty, List.any_eq_true, not_exists] at h
    push_neg at h
    simp only [Contains, Bool.or_eq_true, List.all_eq_true]
    right
    intro i hi
    have hne : (a.Crop b).size i ≠ 0 := by simpa using h i hi
    simp only [Crop] at hne ⊢
    simp only [Bool.and_eq_true, decide_eq_true_eq]
    simp only [max_def, min_def] at hne ⊢
    split_ifs at hne ⊢ <;> omega

end ImageRegion

instance {d : Nat} : DecidableEq (ImageRegion d) := fun a b =>
  decidable_of_iff (ImageRegion.beq a b = true) (ImageRegion.beq_iff_region a b)

/-- Error kinds raised by the update protocol (spec section 7); only the
region-out-of-bounds kind (InvalidRequestedRegionError) is exercised by the
excerpt. -/
inductive PipelineError where
  | RegionOutOfBounds
  deriving DecidableEq

/-- Modelled from the spec: the pipeline-visible state of a Data Object — the
Largest Possible, Buffered and Requested regions, the monotonically
increasing modification timestamp and the released flag (spec section 3,
Data Object). -/
structure DataObjectState (d : Nat) where
  largestPossibleRegion : ImageRegion d
  bufferedRegion : ImageRegion d
  requestedRegion : ImageRegion d
  mtime : Nat
  released : Bool

namespace DataObjectState

/-- Fieldwise boolean equality test for Data Object states. -/
def beq {d : Nat} (a b : DataObjectState d) : Bool :=
  ImageRegion.beq a.largestPossibleRegion b.largestPossibleRegion &&
  ImageRegion.beq a.bufferedRegion b.bufferedRegion &&
  ImageRegion.beq a.requestedRegion b.requestedRegion &&
  (a.mtime == b.mtime) && (a.released == b.released)

theorem beq_iff_dataObject {d : Nat} (a b : DataObjectState d) : beq a b = true ↔ a = b := by
  cases a; cases b
  unfold beq
  simp only [Bool.and_eq_true, beq_iff_eq, ImageRegion.beq_iff_region, mk.injEq]
  tauto

/-- Modelled from the spec: Modified bumps the timestamp unconditionally
(spec section 4.2); the timestamp is modelled by a monotonic counter, which
the spec's design notes explicitly allow. -/
def Modified {d : Nat} (s : DataObjectState d) : DataObjectState d :=
  { s with mtime := s.mtime + 1 }

/-- Modelled from the spec: GetMTime returns the monotonic timestamp (spec
section 4.2). -/
def GetMTime {d : Nat} (s : DataObjectState d) : Nat :=
  s.mtime

/-- Modelled from the spec: UpdateOutputInformation refreshes geometry from
upstream producers; for the single, self-contained Data Object modelled here
there is no upstream chain, and the call is the identity (spec section 4.3
step 1: idempotent, safe to call when nothing changed). -/
def UpdateOutputInformation {d : Nat} (s : DataObjectState d) : DataObjectState d :=
  s

/-- Modelled from the spec: PropagateRequestedRegion clamps the requested
region to fit inside the LargestPossibleRegion and fails with
RegionOutOfBounds only if the clamp yields an empty region when a non-empty
one was demanded (spec sections 4.3 step 3 and 9: any positive-area
intersection with the LargestPossibleRegion is clampable, zero intersection
is an error). -/
def PropagateRequestedRegion {d : Nat} (s : DataObjectState d) :
    Except PipelineError (DataObjectState d) :=
  let clamped := s.requestedRegion.Crop s.largestPossibleRegion
  if clamped.IsEmpty && !s.requestedRegion.IsEmpty then
    Except.error PipelineError.RegionOutOfBounds
  else
    Except.ok { s with requestedRegion := clamped }

/-- Modelled from the spec: VerifyRequestedRegion returns whether the
requested region is fully contained in the LargestPossibleRegion (spec
section 4.3 step 4). -/
def VerifyRequestedRegion {d : Nat} (s : DataObjectState d) : Bool :=
  s.largestPossibleRegion.Contains s.requestedRegion

/-- Modelled from the spec: UpdateOutputData recomputes when the buffered
region does not already cover the requested region; on recomputation it sets
the BufferedRegion to cover the RequestedRegion, advances the timestamp and
clears the released flag (spec section 4.3 step 5). -/
def UpdateOutputData {d : Nat} (s : DataObjectState d) : DataObjectState d :=
  if s.bufferedRegion.Contains s.requestedRegion then
    s
  else
    { s with bufferedRegion := s.requestedRegion, mtime := s.mtime + 1, released := false }

/-- Modelled from the spec: Update runs UpdateOutputInformation, then
PropagateRequestedRegion, then VerifyRequestedRegion, then UpdateOutputData,
in that order, aborting with the region error when propagation or
verification fails (spec section 4.3). -/
def Update {d : Nat} (s : DataObjectState d) : Except PipelineError (DataObjectState d) :=
  match s.UpdateOutputInformation.PropagateRequestedRegion with
  | Except.error e => Except.error e
  | Except.ok s1 =>
      if s1.VerifyRequestedRegion then
        Except.ok s1.UpdateOutputData
      else
        Except.error PipelineError.RegionOutOfBounds

end DataObjectState

instance {d : Nat} : DecidableEq (DataObjectState d) := fun a b =>
  decidable_of_iff (DataObjectState.beq a b = true) (DataObjectState.beq_iff_dataObject a b)

/-- Decidable equality of Except results, used to evaluate the update
protocol on concrete inputs. -/
instance {ε α : Type} [DecidableEq ε] [DecidableEq α] : DecidableEq (Except ε α) := fun x y =>
  match x, y with
  | Except.error a, Except.error b =>
      match decEq a b with
      | isTrue h => isTrue (congrArg Except.error h)
      | isFalse h => isFalse fun hc => h (Except.error.inj hc)
  | Except.error _, Except.ok _ => isFalse fun hc => Except.noConfusion hc
  | Except.ok _, Except.error _ => isFalse fun hc => Except.noConfusion hc
  | Except.ok a, Except.ok b =>
      match decEq a b with
      | isTrue h => isTrue (congrArg Except.ok h)
      | isFalse h => isFalse fun hc => h (Except.ok.inj hc)

/-- A pixel accessor converts between the Internal (stored) and External
(presented) pixel representations (spec section 3, Accessor).  The C++
interface is Get(internal) returning external and Set(internal slot, external
input) writing the slot; Set is modelled as a function from the old slot
value and the input to the new slot value. -/
structure PixelAccessor (Internal External : Type) where
  Get : Internal → External
  Set : Internal → External → Internal

/-- From src/Modules/Core/ImageAdaptors/include/itkAcosImageAdaptor.h:
AcosPixelAccessor.Set(output, input) assigns output = acos(input) and
Get(input) returns acos(input) — both directions apply acos; Set ignores the
old slot value.  The std::acos call and its numeric casts are kept abstract
as the function parameter ac over a carrier shared by Internal and External,
so theorems can instantiate ac with the mathematical arccos. -/
def AcosPixelAccessor (α : Type) (ac : α → α) : PixelAccessor α α where
  Get := fun input => ac input
  Set := fun _output input => ac input

/-- Modelled from the spec: the state of the wrapped Image collaborator — its
Data Object state (regions and timestamp), the identity of its pixel
container, and the stored Internal pixel values indexed by grid index (spec
sections 3 and 6). -/
structure ImageState (d : Nat) (Internal : Type) where
  dataObject : DataObjectState d
  containerId : Nat
  pixels : (Fin d → Int) → Internal

namespace ImageState

/-- Modelled from the spec: the Image, as a Data Object, bumps its timestamp
on Modified (spec section 4.2). -/
def Modified {d : Nat} {In : Type} (img : ImageState d In) : ImageState d In :=
  { img with dataObject := img.dataObject.Modified }

/-- Modelled from the spec: GetMTime of the Image reads the Data Object
timestamp (spec section 4.2). -/
def GetMTime {d : Nat} {In : Type} (img : ImageState d In) : Nat :=
  img.dataObject.GetMTime

end ImageState

/-- The ImageAdaptor of src/Code/Common/itkImageAdaptor.h: it holds the
adapted image m_Image and the accessor m_PixelAccessor, and owns no buffer of
its own. -/
structure ImageAdaptorState (d : Nat) (Internal External : Type) where
  m_Image : ImageState d Internal
  m_PixelAccessor : PixelAccessor Internal External

namespace ImageAdaptorState

/-- From src/Code/Common/itkImageAdaptor.h line 165: SetPixel(index, value)
executes m_PixelAccessor.Set( m_Image->GetPixel(index), value ) — the
accessor writes the image's stored slot at index, receiving the old slot
value by reference. -/
def SetPixel {d : Nat} {In Ex : Type} (a : ImageAdaptorState d In Ex)
    (index : Fin d → Int) (value : Ex) : ImageAdaptorState d In Ex :=
  { a with
    m_Image :=
      { a.m_Image with
        pixels := fun p =>
          if p = index then a.m_PixelAccessor.Set (a.m_Image.pixels index) value
          else a.m_Image.pixels p } }

/-- From src/Code/Common/itkImageAdaptor.h line 169: GetPixel(index) returns
m_PixelAccessor.Get( m_Image->GetPixel(index) ). -/
def GetPixel {d : Nat} {In Ex : Type} (a : ImageAdaptorState d In Ex)
    (index : Fin d → Int) : Ex :=
  a.m_PixelAccessor.Get (a.m_Image.pixels index)

/-- From src/Code/Common/itkImageAdaptor.h line 173: the rvalue
operator[](index) returns m_PixelAccessor.Get( m_Image->GetPixel(index) ),
the same body as GetPixel. -/
def opIndex {d : Nat} {In Ex : Type} (a : ImageAdaptorState d In Ex)
    (index : Fin d → Int) : Ex :=
  a.m_PixelAccessor.Get (a.m_Image.pixels index)

/-- Modelled from the spec: SetLargestPossibleRegion delegates to the wrapped
Image (spec section 4.5); as a Data Object region setter it stores the region
and bumps the timestamp (spec section 4.2). -/
def SetLargestPossibleRegion {d : Nat} {In Ex : Type} (a : ImageAdaptorState d In Ex)
    (region : ImageRegion d) : ImageAdaptorState d In Ex :=
  { a with
    m_Image :=
      { a.m_Image with
        dataObject :=
          { a.m_Image.dataObject with
            largestPossibleRegion := region
            mtime := a.m_Image.dataObject.mtime + 1 } } }

/-- Modelled from the spec: SetBufferedRegion delegates to the wrapped Image
(spec sections 4.2 and 4.5). -/
def SetBufferedRegion {d : Nat} {In Ex : Type} (a : ImageAdaptorState d In Ex)
    (region : ImageRegion d) : ImageAdaptorState d In Ex :=
  { a with
    m_Image :=
      { a.m_Image with
        dataObject :=
          { a.m_Image.dataObject with
            bufferedRegion := region
            mtime := a.m_Image.dataObject.mtime + 1 } } }

/-- Modelled from the spec: SetRequestedRegion delegates to the wrapped Image
(spec sections 4.2 and 4.5). -/
def SetRequestedRegion {d : Nat} {In Ex : Type} (a : ImageAdaptorState d In Ex)
    (region : ImageRegion d) : ImageAdaptorState d In Ex :=
  { a with
    m_Image :=
      { a.m_Image with
        dataObject :=
          { a.m_Image.dataObject with
            requestedRegion := region
            mtime := a.m_Image.dataObject.mtime + 1 } } }

/-- Modelled from the spec: GetLargestPossibleRegion delegates to the adapted
image (src/Code/Common/itkImageAdaptor.h lines 139-147 document the
delegation; the body is in the absent .txx). -/
def GetLargestPossibleRegion {d : Nat} {In Ex : Type}
    (a : ImageAdaptorState d In Ex) : ImageRegion d :=
  a.m_Image.dataObject.largestPossibleRegion

/-- Modelled from the spec: GetBufferedRegion delegates to the adapted
image. -/
def GetBufferedRegion {d : Nat} {In Ex : Type}
    (a : ImageAdaptorState d In Ex) : ImageRegion d :=
  a.m_Image.dataObject.bufferedRegion

/-- Modelled from the spec: GetRequestedRegion delegates to the adapted
image. -/
def GetRequestedRegion {d : Nat} {In Ex : Type}
    (a : ImageAdaptorState d In Ex) : ImageRegion d :=
  a.m_Image.dataObject.requestedRegion

/-- Modelled from the spec: Modified on the Adaptor is delegated to the
wrapped Image (src/Code/Common/itkImageAdaptor.h line 240 documents the
delegation), marking the wrapped Image modified. -/
def Modified {d : Nat} {In Ex : Type} (a : ImageAdaptorState d In Ex) :
    ImageAdaptorState d In Ex :=
  { a with m_Image := a.m_Image.Modified }

/-- Modelled from the spec: GetMTime on the Adaptor is delegated to the
wrapped Image (src/Code/Common/itkImageAdaptor.h line 243 documents the
delegation). -/
def GetMTime {d : Nat} {In Ex : Type} (a : ImageAdaptorState d In Ex) : Nat :=
  a.m_Image.GetMTime

/-- SetPixelContainer replaces the wrapped Image's pixel container.  Per the
documentation in src/Code/Common/itkImageAdaptor.h lines 192-193, this does
not cause the DataObject to be modified: the timestamp is left unchanged. -/
def SetPixelContainer {d : Nat} {In Ex : Type} (a : ImageAdaptorState d In Ex)
    (container : Nat) : ImageAdaptorState d In Ex :=
  { a with m_Image := { a.m_Image with containerId := container } }

/-- Modelled from the spec: Update on the Adaptor delegates the update
protocol to the wrapped Image's Data Object state (spec section 4.5). -/
def Update {d : Nat} {In Ex : Type} (a : ImageAdaptorState d In Ex) :
    Except PipelineError (ImageAdaptorState d In Ex) :=
  match a.m_Image.dataObject.Update with
  | Except.error e => Except.error e
  | Except.ok dobj => Except.ok { a with m_Image := { a.m_Image with dataObject := dobj } }

end ImageAdaptorState

/-- The TranslationTransform of src/Code/Common/itkTranslationTransform.h: it
owns the offset vector m_Offset.  Scalars (TScalarType, float or double in
the C++ template) are modelled by ℚ; points, vectors and covariant vectors of
dimension d are Fin d → ℚ. -/
structure TranslationTransform (d : Nat) where
  m_Offset : Fin d → ℚ

namespace TranslationTransform

/-- Modelled from the spec: Transform(point) returns point + offset (spec
section 4.6; the body is in the absent .txx). -/
def TransformPoint {d : Nat} (t : TranslationTransform d) (point : Fin d → ℚ) :
    Fin d → ℚ :=
  fun i => point i + t.m_Offset i

/-- Modelled from the spec: Transform(vector) returns the vector unchanged —
a pure translation acts on positions, not directions (spec section 4.6). -/
def TransformVector {d : Nat} (_t : TranslationTransform d) (vector : Fin d → ℚ) :
    Fin d → ℚ :=
  vector

/-- Modelled from the spec: Transform(covariant vector) returns it unchanged
(spec section 4.6). -/
def TransformCovariantVector {d : Nat} (_t : TranslationTransform d)
    (vector : Fin d → ℚ) : Fin d → ℚ :=
  vector

/-- Modelled from the spec: BackTransform(point) returns point - offset,
always defined for a pure translation (spec section 4.6). -/
def BackTransformPoint {d : Nat} (t : TranslationTransform d) (point : Fin d → ℚ) :
    Fin d → ℚ :=
  fun i => point i - t.m_Offset i

/-- Modelled from the spec: BackTransform(vector) returns the vector
unchanged (spec section 4.6). -/
def BackTransformVector {d : Nat} (_t : TranslationTransform d)
    (vector : Fin d → ℚ) : Fin d → ℚ :=
  vector

/-- Modelled from the spec: BackTransform(covariant vector) returns it
unchanged (spec section 4.6). -/
def BackTransformCovariantVector {d : Nat} (_t : TranslationTransform d)
    (vector : Fin d → ℚ) : Fin d → ℚ :=
  vector

/-- Modelled from the spec: Compose(other, pre) adds the other translation's
offset to self's offset; for translations the pre flag does not change the
numeric result but is accepted for interface compatibility (spec section
4.6). -/
def Compose {d : Nat} (t other : TranslationTransform d) (_pre : Bool) :
    TranslationTransform d :=
  { m_Offset := fun i => t.m_Offset i + other.m_Offset i }

/-- Modelled from the spec: Translate(offset, pre) adds the given offset to
self's offset (src/Code/Common/itkTranslationTransform.h line 150; the
translation is precomposed or postcomposed per the flag, with identical
numeric result for translations). -/
def Translate {d : Nat} (t : TranslationTransform d) (offset : Fin d → ℚ)
    (_pre : Bool) : TranslationTransform d :=
  { m_Offset := fun i => t.m_Offset i + offset i }

/-- Modelled from the spec: Inverse returns the translation with the negated
offset; total, never fails, for this transform family (spec section 4.6). -/
def Inverse {d : Nat} (t : TranslationTransform d) : TranslationTransform d :=
  { m_Offset := fun i => - t.m_Offset i }

end TranslationTransform

/-- A pixel accessor that presents the stored value unchanged, used by
concrete witnesses. -/
def identityAccessor : PixelAccessor Int Int :=
  { Get := fun v => v, Set := fun _old v => v }

/-- One-dimensional full extent, start 0 size 10, used by concrete
witnesses. -/
def regionFull : ImageRegion 1 := { index := fun _ => 0, size := fun _ => 10 }

/-- One-dimensional requested region, start 2 size 3. -/
def regionReq : ImageRegion 1 := { index := fun _ => 2, size := fun _ => 3 }

/-- One-dimensional empty region. -/
def regionNone : ImageRegion 1 := { index := fun _ => 0, size := fun _ => 0 }

/-- A concrete Data Object before Update: nothing buffered yet, a valid
requested region. -/
def dobjW : DataObjectState 1 :=
  { largestPossibleRegion := regionFull, bufferedRegion := regionNone,
    requestedRegion := regionReq, mtime := 0, released := false }

/-- The state Update produces from dobjW. -/
def dobjWres : DataObjectState 1 :=
  { largestPossibleRegion := regionFull,
    bufferedRegion := regionReq.Crop regionFull,
    requestedRegion := regionReq.Crop regionFull,
    mtime := 1, released := false }

/-- A concrete adaptor wrapping an image in state dobjW. -/
def adaptorW : ImageAdaptorState 1 Int Int :=
  { m_Image := { dataObject := dobjW, containerId := 0, pixels := fun _ => 0 },
    m_PixelAccessor := identityAccessor }

/-- The adaptor state Update produces from adaptorW. -/
def adaptorWres : ImageAdaptorState 1 Int Int :=
  { m_Image := { dataObject := dobjWres, containerId := 0, pixels := fun _ => 0 },
    m_PixelAccessor := identityAccessor }

/-- A concrete adaptor whose wrapped image has a nonempty buffered region
containing index 0. -/
def adaptorC10 : ImageAdaptorState 1 Int Int :=
  { m_Image :=
      { dataObject :=
          { largestPossibleRegion := regionFull, bufferedRegion := regionFull,
            requestedRegion := regionFull, mtime := 0, released := false },
        containerId := 0, pixels := fun _ => 7 },
    m_PixelAccessor := identityAccessor }

/-- The two-dimensional largest possible region of the C3 scenario: start
(0,0), size (10,10). -/
def lprC3 : ImageRegion 2 := { index := ![0, 0], size := ![10, 10] }

/-- C3 scenario one: requested region start (5,5) size (10,10), exceeding the
bounds but overlapping them. -/
def dobjC3in : DataObjectState 2 :=
  { largestPossibleRegion := lprC3,
    bufferedRegion := { index := ![0, 0], size := ![0, 0] },
    requestedRegion := { index := ![5, 5], size := ![10, 10] },
    mtime := 0, released := false }

/-- C3 scenario two: requested region start (20,20) size (5,5), entirely
outside the bounds. -/
def dobjC3out : DataObjectState 2 :=
  { largestPossibleRegion := lprC3,
    bufferedRegion := { index := ![0, 0], size := ![0, 0] },
    requestedRegion := { index := ![20, 20], size := ![5, 5] },
    mtime := 0, released := false }

/-- After a successful Update, the buffered region covers the requested
region, and the largest possible region covers the buffered region provided
it did so on entry (the spec keeps the latter invariant at all times). -/
theorem DataObjectState.update_ok_invariants {d : Nat} {s s' : DataObjectState d}
    (hs : s.largestPossibleRegion.Contains s.bufferedRegion = true)
    (hup : s.Update = Except.ok s') :
    s'.bufferedRegion.Contains s'.requestedRegion = true ∧
    s'.largestPossibleRegion.Contains s'.bufferedRegion = true := by
  unfold Update UpdateOutputInformation at hup
  cases heq : s.PropagateRequestedRegion with
  | error e => rw [heq] at hup; cases hup
  | ok s1 =>
      rw [heq] at hup
      dsimp only at hup
      by_cases hver : s1.VerifyRequestedRegion = true
      · rw [if_pos hver] at hup
        injection hup with hup1
        unfold PropagateRequestedRegion at heq
        by_cases hcl :
            ((s.requestedRegion.Crop s.largestPossibleRegion).IsEmpty &&
              !s.requestedRegion.IsEmpty) = true
        · rw [if_pos hcl] at heq; cases heq
        · rw [if_neg hcl] at heq
          injection heq with heq1
          subst heq1
          subst hup1
          unfold UpdateOutputData
          by_cases hbuf :
              ImageRegion.Contains
                ({ s with requestedRegion := s.requestedRegion.Crop s.largestPossibleRegion } :
                  DataObjectState d).bufferedRegion
                ({ s with requestedRegion := s.requestedRegion.Crop s.largestPossibleRegion } :
                  DataObjectState d).requestedRegion = true
          · rw [if_pos hbuf]
            exact ⟨hbuf, hs⟩
          · rw [if_neg hbuf]
            exact ⟨ImageRegion.contains_refl _, ImageRegion.contains_crop _ _⟩
      · rw [if_neg hver] at hup; cases hup

/-- Counterexample to claim C1 as stated: the AcosPixelAccessor is not an
inverse pair — its Set applies acos just as Get does — so on the adaptor
wrapping a real-valued image with the arccos accessor, SetPixel at index 0
with value 1 followed by GetPixel at index 0 returns
arccos (arccos 1) = arccos 0 = pi / 2, not 1; the deviation is far beyond any
numeric precision of the pixel types. -/
theorem C1_counterexample :
    ¬ (ImageAdaptorState.GetPixel
        (ImageAdaptorState.SetPixel
          ({ m_Image :=
              { dataObject :=
                  { largestPossibleRegion := { index := fun _ => 0, size := fun _ => 10 },
                    bufferedRegion := { index := fun _ => 0, size := fun _ => 10 },
                    requestedRegion := { index := fun _ => 0, size := fun _ => 10 },
                    mtime := 0, released := false },
                containerId := 0, pixels := fun _ => (0 : Real) },
             m_PixelAccessor := AcosPixelAccessor Real Real.arccos } :
            ImageAdaptorState 1 Real Real)
          (fun _ => 0) 1)
        (fun _ => 0) = (1 : Real)) := by
  simp only [ImageAdaptorState.GetPixel, ImageAdaptorState.SetPixel, AcosPixelAccessor,
    eq_self_iff_true, if_true]
  rw [Real.arccos_one, Real.arccos_zero]
  intro h
  nlinarith [Real.pi_gt_three]

/-- Claim C1 amended: SetPixel followed by GetPixel returns the Accessor's
Get of the value Set stored, and for the AcosPixelAccessor — whose Set
applies acos rather than the inverse of Get — the round trip returns
acos(acos v) rather than v. -/
theorem C1_amended_roundtrip :
    (∀ (d : Nat) (In Ex : Type) (a : ImageAdaptorState d In Ex)
        (idx : Fin d → Int) (v : Ex),
      (a.SetPixel idx v).GetPixel idx =
        a.m_PixelAccessor.Get (a.m_PixelAccessor.Set (a.m_Image.pixels idx) v)) ∧
    (∀ (d : Nat) (α : Type) (ac : α → α) (img : ImageState d α)
        (idx : Fin d → Int) (v : α),
      (ImageAdaptorState.SetPixel
          { m_Image := img, m_PixelAccessor := AcosPixelAccessor α ac } idx v).GetPixel
        idx = ac (ac v)) := by
  constructor
  · intro d In Ex a idx v
    simp [ImageAdaptorState.GetPixel, ImageAdaptorState.SetPixel]
  · intro d α ac img idx v
    simp [ImageAdaptorState.GetPixel, ImageAdaptorState.SetPixel, AcosPixelAccessor]

/-- Claim C2: after every successful Update, the BufferedRegion contains the
RequestedRegion and the LargestPossibleRegion contains the BufferedRegion;
this holds for an Image Adaptor (via the wrapped Image's region state) as for
any other Data Object.  The LargestPossibleRegion-contains-BufferedRegion
invariant is assumed on entry, as the spec keeps it at all times. -/
theorem C2_update_region_invariants (d : Nat) (In Ex : Type)
    (s s' : DataObjectState d) (a a' : ImageAdaptorState d In Ex)
    (hs : s.largestPossibleRegion.Contains s.bufferedRegion = true)
    (hup : s.Update = Except.ok s')
    (ha : a.m_Image.dataObject.largestPossibleRegion.Contains
      a.m_Image.dataObject.bufferedRegion = true)
    (haup : a.Update = Except.ok a') :
    s'.bufferedRegion.Contains s'.requestedRegion = true ∧
    s'.largestPossibleRegion.Contains s'.bufferedRegion = true ∧
    a'.m_Image.dataObject.bufferedRegion.Contains
      a'.m_Image.dataObject.requestedRegion = true ∧
    a'.m_Image.dataObject.largestPossibleRegion.Contains
      a'.m_Image.dataObject.bufferedRegion = true := by
  obtain ⟨h1, h2⟩ := DataObjectState.update_ok_invariants hs hup
  unfold ImageAdaptorState.Update at haup
  cases heq : a.m_Image.dataObject.Update with
  | error e => rw [heq] at haup; cases haup
  | ok dobj =>
      rw [heq] at haup
      dsimp only at haup
      injection haup with haup1
      obtain ⟨h3, h4⟩ := DataObjectState.update_ok_invariants ha heq
      subst haup1
      exact ⟨h1, h2, h3, h4⟩

/-- Witness for C2: a concrete Data Object and Adaptor whose Update succeeds,
with the entry invariant discharged by evaluation. -/
theorem C2_update_region_invariants_witness :
    (dobjW.largestPossibleRegion.Contains dobjW.bufferedRegion = true ∧
     dobjW.Update = Except.ok dobjWres ∧
     adaptorW.m_Image.dataObject.largestPossibleRegion.Contains
       adaptorW.m_Image.dataObject.bufferedRegion = true ∧
     adaptorW.Update = Except.ok adaptorWres) ∧
    (dobjWres.bufferedRegion.Contains dobjWres.requestedRegion = true ∧
     dobjWres.largestPossibleRegion.Contains dobjWres.bufferedRegion = true ∧
     adaptorWres.m_Image.dataObject.bufferedRegion.Contains
       adaptorWres.m_Image.dataObject.requestedRegion = true ∧
     adaptorWres.m_Image.dataObject.largestPossibleRegion.Contains
       adaptorWres.m_Image.dataObject.bufferedRegion = true) :=
  ⟨⟨by decide, rfl, by decide, rfl⟩,
    C2_update_region_invariants 1 Int Int dobjW dobjWres adaptorW adaptorWres
      (by decide) rfl (by decide) rfl⟩

/-- Claim C3: with LargestPossibleRegion start (0,0) size (10,10), a
RequestedRegion of start (5,5) size (10,10) — positive-area overlap — is
clamped by PropagateRequestedRegion to start (5,5) size (5,5) and the call
succeeds, while a RequestedRegion of start (20,20) size (5,5) — empty
intersection — raises RegionOutOfBounds. -/
theorem C3_propagate_clamps_or_raises :
    dobjC3in.PropagateRequestedRegion =
      Except.ok
        { dobjC3in with requestedRegion := { index := ![5, 5], size := ![5, 5] } } ∧
    dobjC3out.PropagateRequestedRegion = Except.error PipelineError.RegionOutOfBounds :=
  ⟨by decide, by decide⟩

/-- Claim C4: every region mutation on the Adaptor is forwarded to the
wrapped Image and every region query reads the wrapped Image's state, so
after SetLargestPossibleRegion(r) both the Adaptor's getter and the wrapped
Image's region field equal r, likewise for the Buffered and Requested
regions, and the Adaptor's reported region state never diverges from the
wrapped Image's. -/
theorem C4_region_delegation (d : Nat) (In Ex : Type)
    (a : ImageAdaptorState d In Ex) (r : ImageRegion d) :
    (a.SetLargestPossibleRegion r).GetLargestPossibleRegion = r ∧
    (a.SetLargestPossibleRegion r).m_Image.dataObject.largestPossibleRegion = r ∧
    (a.SetBufferedRegion r).GetBufferedRegion = r ∧
    (a.SetBufferedRegion r).m_Image.dataObject.bufferedRegion = r ∧
    (a.SetRequestedRegion r).GetRequestedRegion = r ∧
    (a.SetRequestedRegion r).m_Image.dataObject.requestedRegion = r ∧
    a.GetLargestPossibleRegion = a.m_Image.dataObject.largestPossibleRegion ∧
    a.GetBufferedRegion = a.m_Image.dataObject.bufferedRegion ∧
    a.GetRequestedRegion = a.m_Image.dataObject.requestedRegion :=
  ⟨rfl, rfl, rfl, rfl, rfl, rfl, rfl, rfl, rfl⟩

/-- Claim C5: Modified on the Adaptor marks the wrapped Image modified
(delegation), GetMTime on the Adaptor is delegated to the wrapped Image, and
after Modified the Adaptor's GetMTime equals the wrapped Image's and is
strictly greater than before the call. -/
theorem C5_modified_delegation (d : Nat) (In Ex : Type)
    (a : ImageAdaptorState d In Ex) :
    a.Modified.m_Image = a.m_Image.Modified ∧
    a.Modified.GetMTime = a.Modified.m_Image.GetMTime ∧
    a.GetMTime < a.Modified.GetMTime :=
  ⟨rfl, rfl, Nat.lt_succ_self _⟩

/-- Counterexample to claim C6 as stated: replacing the pixel container with
a different one via SetPixelContainer leaves GetMTime unchanged — the header
itself documents that SetPixelContainer does not cause the DataObject to be
modified — so GetMTime is not strictly greater after the call. -/
theorem C6_counterexample :
    adaptorW.m_Image.containerId ≠ 1 ∧
    ¬ adaptorW.GetMTime < (adaptorW.SetPixelContainer 1).GetMTime :=
  ⟨by decide, by decide⟩

/-- Claim C6 amended: SetPixelContainer replaces the pixel container but, per
its own documentation, does not mark the Data Object modified: GetMTime is
unchanged (so not strictly greater).  The timestamp remains monotonic: it
never decreases under SetPixelContainer and strictly increases under
Modified. -/
theorem C6_amended_setpixelcontainer_mtime (d : Nat) (In Ex : Type)
    (a : ImageAdaptorState d In Ex) (c : Nat) :
    (a.SetPixelContainer c).GetMTime = a.GetMTime ∧
    (a.SetPixelContainer c).m_Image.containerId = c ∧
    a.GetMTime ≤ (a.SetPixelContainer c).GetMTime ∧
    a.GetMTime < a.Modified.GetMTime :=
  ⟨rfl, rfl, Nat.le_refl _, Nat.lt_succ_self _⟩

/-- Claim C7: composing translation transforms adds the offsets for both
values of the pre flag, and applying the composition to a point equals
applying T1 then T2; concretely, for offsets (1,2) and (3,4) the composed
offset is (4,6) and the composed transform maps (0,0) to (4,6). -/
theorem C7_translation_compose :
    (∀ (d : Nat) (t1 t2 : TranslationTransform d) (pre : Bool),
      (t1.Compose t2 pre).m_Offset = fun i => t1.m_Offset i + t2.m_Offset i) ∧
    (∀ (d : Nat) (t1 t2 : TranslationTransform d) (pre : Bool) (p : Fin d → ℚ),
      (t1.Compose t2 pre).TransformPoint p = t2.TransformPoint (t1.TransformPoint p)) ∧
    (TranslationTransform.Compose ⟨![1, 2]⟩ ⟨![3, 4]⟩ false).m_Offset = ![4, 6] ∧
    (TranslationTransform.Compose ⟨![1, 2]⟩ ⟨![3, 4]⟩ true).m_Offset = ![4, 6] ∧
    (TranslationTransform.Compose ⟨![1, 2]⟩ ⟨![3, 4]⟩ false).TransformPoint ![0, 0] =
      ![4, 6] := by
  refine ⟨fun d t1 t2 pre => rfl, fun d t1 t2 pre p => ?_, ?_, ?_, ?_⟩
  · funext i
    simp only [TranslationTransform.TransformPoint, TranslationTransform.Compose]
    ring
  all_goals
    funext i
    fin_cases i <;>
      norm_num [TranslationTransform.Compose, TranslationTransform.TransformPoint]

/-- Claim C8: for a translation with offset o, BackTransform(p) = p - o and
is total (the model is a total function: no singular case), BackTransform
inverts Transform, and Inverse returns the translation with offset -o;
Inverse is likewise total for this family. -/
theorem C8_translation_backtransform (d : Nat) (t : TranslationTransform d)
    (p : Fin d → ℚ) :
    t.BackTransformPoint p = (fun i => p i - t.m_Offset i) ∧
    t.BackTransformPoint (t.TransformPoint p) = p ∧
    t.Inverse.m_Offset = (fun i => - t.m_Offset i) := by
  refine ⟨rfl, ?_, rfl⟩
  funext i
  simp [TranslationTransform.BackTransformPoint, TranslationTransform.TransformPoint]

/-- Claim C9: Transform adds the offset to points but leaves vectors and
covariant vectors unchanged, and BackTransform also leaves vectors and
covariant vectors unchanged. -/
theorem C9_translation_vectors (d : Nat) (t : TranslationTransform d)
    (p v c : Fin d → ℚ) :
    t.TransformPoint p = (fun i => p i + t.m_Offset i) ∧
    t.TransformVector v = v ∧
    t.TransformCovariantVector c = c ∧
    t.BackTransformVector v = v ∧
    t.BackTransformCovariantVector c = c :=
  ⟨rfl, rfl, rfl, rfl, rfl⟩

/-- Claim C10: the rvalue operator[] and GetPixel are the same read path: for
an index inside the wrapped Image's buffered region, both return the
Accessor's Get of the wrapped Image's stored value, so the two read paths are
equivalent. -/
theorem C10_opindex_eq_getpixel (d : Nat) (In Ex : Type)
    (a : ImageAdaptorState d In Ex) (idx : Fin d → Int)
    (_hin : a.m_Image.dataObject.bufferedRegion.ContainsIndex idx = true) :
    a.opIndex idx = a.GetPixel idx ∧
    a.opIndex idx = a.m_PixelAccessor.Get (a.m_Image.pixels idx) :=
  ⟨rfl, rfl⟩

/-- Witness for C10: a concrete adaptor state with the index inside the
buffered region. -/
theorem C10_opindex_eq_getpixel_witness :
    adaptorC10.m_Image.dataObject.bufferedRegion.ContainsIndex (fun _ => 0) = true ∧
    (adaptorC10.opIndex (fun _ => 0) = adaptorC10.GetPixel (fun _ => 0) ∧
     adaptorC10.opIndex (fun _ => 0) =
       adaptorC10.m_PixelAccessor.Get (adaptorC10.m_Image.pixels (fun _ => 0))) :=
  ⟨by decide,
    C10_opindex_eq_getpixel 1 Int Int adaptorC10 (fun _ => 0) (by decide)⟩
